import Mathlib

/-
  Verification of the stark-backend credential service (src/server.js).

  The account service, its store queries and its validation logic are embedded
  from the source file; the external collaborators (bcryptjs, jsonwebtoken)
  are modelled from the spec contracts in sections 4.1 and 4.2, since their
  code is not part of this repository.
-/

namespace Stark

/-! ## Password hasher (external collaborator) -/

/-- Modelled from the spec: the output of the bcrypt hasher.  The hash embeds
the salt so that verification can recompute with the same parameters; the
model keeps the plaintext as the opaque digest, which lets verification be
expressed as recompute-and-compare exactly as section 4.1 describes. -/
structure BcryptHash where
  salt : Nat
  digest : String
deriving DecidableEq, Repr

/-- Modelled from the spec: `hash(plaintext)` with a fresh salt supplied per
call (the caller passes the salt the way `bcrypt.genSalt(10)` produces one). -/
def bcryptHash (salt : Nat) (plaintext : String) : BcryptHash :=
  ⟨salt, plaintext⟩

/-- Modelled from the spec: `verify(plaintext, hashedSecret)` recomputes using
the embedded salt and compares, returning a boolean (never throwing). -/
def bcryptCompare (plaintext : String) (h : BcryptHash) : Bool :=
  bcryptHash h.salt plaintext == h

/-! ## Token issuer and verifier (external collaborator) -/

/-- The logical token payload: exactly the claims the service signs at
server.js lines 121-128 and 173-177 (`userId`, `username`), together with the
issuance time the signing library records (`iat`). -/
structure TokenPayload where
  userId : Nat
  username : String
  iat : Nat
deriving DecidableEq, Repr

/-- Modelled from the spec: a signature binds the signing secret to the signed
payload and expiry, so any alteration of payload, expiry or secret is
detectable at verification time. -/
structure Signature where
  secret : String
  signedPayload : TokenPayload
  signedExp : Nat
deriving DecidableEq, Repr

/-- A signed token: payload, the expiry the signing scheme manages itself
(the `expiresIn` 30d option), and the signature. -/
structure Token where
  payload : TokenPayload
  exp : Nat
  sig : Signature
deriving DecidableEq, Repr

/-- 30 days in seconds: the `expiresIn` 30d option at server.js line 127. -/
def thirtyDays : Nat := 30 * 24 * 60 * 60

/-- Modelled from the spec: `jwt.sign({userId, username}, secret,
{expiresIn: 30d})` — issuance records the payload, stamps `iat` with the
current time, and sets the expiry 30 days out, sealed under the secret. -/
def jwtSign (secret : String) (userId : Nat) (username : String) (now : Nat) : Token :=
  let p : TokenPayload := ⟨userId, username, now⟩
  ⟨p, now + thirtyDays, ⟨secret, p, now + thirtyDays⟩⟩

/-- Modelled from the spec: `jwt.verify(token, secret)` — throws (modelled as
`Except.error`) when the signature does not match the secret and contents, or
when the token is expired; otherwise returns the decoded payload. -/
def jwtVerify (secret : String) (now : Nat) (t : Token) : Except String TokenPayload :=
  if t.sig ≠ (⟨secret, t.payload, t.exp⟩ : Signature) then .error "invalid signature"
  else if t.exp ≤ now then .error "jwt expired"
  else .ok t.payload

/-! ## Data model and store -/

/-- A row of the `users` table created by `initDatabase` (server.js lines
29-37): id SERIAL PRIMARY KEY, username UNIQUE NOT NULL, email UNIQUE NOT
NULL, password_hash NOT NULL, created_at. -/
structure Account where
  id : Nat
  username : String
  email : String
  passwordHash : BcryptHash
  createdAt : Nat
deriving DecidableEq, Repr

/-- The credential store: the rows of the `users` table in insertion order,
plus the next value of the SERIAL id sequence. -/
structure Store where
  accounts : List Account
  nextId : Nat
deriving DecidableEq, Repr

/-- Embeds `INSERT INTO users (username, email, password_hash) VALUES ...
RETURNING id, username, email, created_at` (server.js lines 114-118) together
with the UNIQUE constraints on username and email from the table definition:
a duplicate in either column makes the insert throw, leaving the table
unchanged. -/
def insertUser (s : Store) (u e : String) (ph : BcryptHash) (now : Nat) :
    Except String (Account × Store) :=
  if s.accounts.any (fun a => a.username == u) then
    .error "duplicate key value violates unique constraint users_username_key"
  else if s.accounts.any (fun a => a.email == e) then
    .error "duplicate key value violates unique constraint users_email_key"
  else
    let acct : Account := ⟨s.nextId, u, e, ph, now⟩
    .ok (acct, ⟨s.accounts ++ [acct], s.nextId + 1⟩)

/-! ## Configuration -/

/-- Embeds server.js line 11: `JWT_SECRET = process.env.JWT_SECRET ||
.stark-secret-key-2024.` — in JS an unset variable is `undefined` and an empty
string is falsy, so both fall back to the hardcoded constant. -/
def jwtSecretConfig : Option String → String
  | none => "stark-secret-key-2024"
  | some s => if s.isEmpty then "stark-secret-key-2024" else s

/-! ## Account service: register -/

/-- The body of a register request; a field missing from `req.body` is
`none`, and JS truthiness also treats the empty string as absent. -/
structure RegisterRequest where
  username : Option String
  email : Option String
  password : Option String
deriving DecidableEq, Repr

/-- JS falsiness of an optional string field: `undefined` or the empty
string. -/
def falsy : Option String → Bool
  | none => true
  | some s => s.isEmpty

/-- The public view of an account returned by register and login responses:
id, username, email — never the password hash. -/
structure UserView where
  id : Nat
  username : String
  email : String
deriving DecidableEq, Repr

/-- Error message of server.js line 90. -/
def allFieldsMsg : String := "Все поля обязательны"

/-- Error message of server.js line 94. -/
def shortPasswordMsg : String := "Пароль должен быть не менее 6 символов"

/-- Error message of server.js line 105. -/
def userExistsMsg : String := "Пользователь с таким именем или email уже существует"

/-- Error message of server.js line 145 (catch-all 500 during register). -/
def registerFailMsg : String := "Ошибка сервера при регистрации"

/-- Error message of server.js lines 163 and 169 (login failures). -/
def invalidCredsMsg : String := "Неверное имя пользователя или пароль"

/-- The HTTP result of the register endpoint: 201 with token and user view,
or an error status (400 validation and conflict branches, 500 catch). -/
inductive RegisterResponse where
  | created (token : Token) (user : UserView)
  | failed (status : Nat) (error : String)
deriving DecidableEq, Repr

/-- The observable effects the register handler performs against the store
and the crypto collaborators, in source order. -/
inductive DbEvent where
  | lookup
  | hashOp
  | insert
  | tokenSign
deriving DecidableEq, Repr

/-- Result of one register call: the HTTP response, the store afterwards, and
the trace of effects performed. -/
structure RegisterStep where
  resp : RegisterResponse
  store : Store
  events : List DbEvent
deriving DecidableEq, Repr

/-- Embeds the register handler, server.js lines 82-149:
validation (lines 89-95), the uniqueness pre-check `SELECT id FROM users
WHERE username = $1 OR email = $2` (lines 98-107), bcrypt hashing (lines
110-111), the insert (lines 114-118, constraint violations land in the catch
block as a 500), token signing (lines 121-128) and the 201 response. -/
def register (secret : String) (s : Store) (req : RegisterRequest)
    (salt now : Nat) : RegisterStep :=
  if falsy req.username || falsy req.email || falsy req.password then
    ⟨.failed 400 allFieldsMsg, s, []⟩
  else
    let u := req.username.getD ""
    let e := req.email.getD ""
    let p := req.password.getD ""
    if p.length < 6 then
      ⟨.failed 400 shortPasswordMsg, s, []⟩
    else
      let rows := s.accounts.filter (fun a => a.username == u || a.email == e)
      if rows.length > 0 then
        ⟨.failed 400 userExistsMsg, s, [.lookup]⟩
      else
        let ph := bcryptHash salt p
        match insertUser s u e ph now with
        | .error _ => ⟨.failed 500 registerFailMsg, s, [.lookup, .hashOp, .insert]⟩
        | .ok (acct, s') =>
          let token := jwtSign secret acct.id acct.username now
          ⟨.created token ⟨acct.id, acct.username, acct.email⟩, s',
            [.lookup, .hashOp, .insert, .tokenSign]⟩

/-! ## Account service: login -/

/-- The HTTP result of the login endpoint: 200 with token and user view, or
an error status (401 for both failure branches). -/
inductive LoginResponse where
  | ok (token : Token) (user : UserView)
  | failed (status : Nat) (error : String)
deriving DecidableEq, Repr

/-- Embeds the login handler, server.js lines 152-193: `SELECT * FROM users
WHERE username = $1 OR email = $1` taking `rows[0]` (the first matching row
in table order), then `bcrypt.compare` against its stored hash; both the
no-row case and the wrong-password case answer 401 with the same message. -/
def login (secret : String) (s : Store) (identifier password : String)
    (now : Nat) : LoginResponse :=
  match s.accounts.find? (fun a => a.username == identifier || a.email == identifier) with
  | none => .failed 401 invalidCredsMsg
  | some a =>
    if bcryptCompare password a.passwordHash then
      .ok (jwtSign secret a.id a.username now) ⟨a.id, a.username, a.email⟩
    else
      .failed 401 invalidCredsMsg

/-! ## Verify-token endpoint -/

/-- What the verify-token handler extracts from the Authorization header:
nothing, an unparseable string, or a structurally well-formed token. -/
inductive PresentedToken where
  | missing
  | malformed
  | parsed (t : Token)
deriving DecidableEq, Repr

/-- Error message of server.js line 201. -/
def noTokenMsg : String := "Токен не предоставлен"

/-- Error message of server.js line 208. -/
def badTokenMsg : String := "Недействительный токен"

/-- The discriminated result of the verify-token endpoint. -/
inductive VerifyResponse where
  | valid (user : TokenPayload)
  | invalid (error : String)
deriving DecidableEq, Repr

/-- Embeds the verify-token handler, server.js lines 196-210: a missing token
answers valid false at once; otherwise `jwt.verify` runs inside try/catch and
any raised error (malformed input, bad signature, expiry) is converted into a
valid false response rather than propagating. -/
def verifyTokenEndpoint (secret : String) (now : Nat) (p : PresentedToken) :
    VerifyResponse :=
  match p with
  | .missing => .invalid noTokenMsg
  | .malformed => .invalid badTokenMsg
  | .parsed t =>
    match jwtVerify secret now t with
    | .ok d => .valid d
    | .error _ => .invalid badTokenMsg

/-! ## Check-username and users endpoints -/

/-- Embeds the check-username handler, server.js lines 68-79: `SELECT id FROM
users WHERE username = $1`, available when no row matches. -/
def checkUsernameAvailable (s : Store) (u : String) : Bool :=
  (s.accounts.filter (fun a => a.username == u)).length == 0

/-- A record of the users listing: the columns of `SELECT id, username,
email, created_at FROM users` — the password_hash column is not selected. -/
structure UserRecord where
  id : Nat
  username : String
  email : String
  createdAt : Nat
deriving DecidableEq, Repr

/-- The projection of an account onto the listed columns. -/
def publicRecord (a : Account) : UserRecord :=
  ⟨a.id, a.username, a.email, a.createdAt⟩

/-- Embeds the users handler, server.js lines 213-220: `SELECT id, username,
email, created_at FROM users`. -/
def listUsers (s : Store) : List UserRecord :=
  s.accounts.map publicRecord

/-! ## Helper lemmas -/

/-- A nonempty string is not isEmpty. -/
theorem isEmpty_false_of_ne {u : String} (hu : u ≠ "") : u.isEmpty = false := by
  cases h : u.isEmpty with
  | false => rfl
  | true => exact absurd ((String.isEmpty_iff u).mp h) hu

/-- A string of length at least six is nonempty. -/
theorem ne_empty_of_six_le {p : String} (hp : 6 ≤ p.length) : p ≠ "" := by
  intro h
  rw [h] at hp
  simp at hp

/-- Register on a store free of the new username and email inserts the account and answers 201. -/
theorem register_fresh_success
    (secret : String) (s : Store) (u e p : String) (salt now : Nat)
    (hu : u ≠ "") (he : e ≠ "") (hp : 6 ≤ p.length)
    (hnu : ∀ a ∈ s.accounts, a.username ≠ u)
    (hne : ∀ a ∈ s.accounts, a.email ≠ e) :
    register secret s ⟨some u, some e, some p⟩ salt now =
      ⟨.created (jwtSign secret s.nextId u now) ⟨s.nextId, u, e⟩,
        ⟨s.accounts ++ [⟨s.nextId, u, e, bcryptHash salt p, now⟩], s.nextId + 1⟩,
        [.lookup, .hashOp, .insert, .tokenSign]⟩ := by
  have hrows : (s.accounts.filter (fun a => a.username == u || a.email == e)) = [] := by
    rw [List.filter_eq_nil_iff]
    intro a ha
    simp [hnu a ha, hne a ha]
  have hau : (s.accounts.any (fun a => a.username == u)) = false := by
    rw [List.any_eq_false]
    intro a ha
    simp [hnu a ha]
  have hae : (s.accounts.any (fun a => a.email == e)) = false := by
    rw [List.any_eq_false]
    intro a ha
    simp [hne a ha]
  simp [register, falsy, isEmpty_false_of_ne hu, isEmpty_false_of_ne he,
    isEmpty_false_of_ne (ne_empty_of_six_le hp), Nat.not_lt.mpr hp, hrows,
    insertUser, hau, hae]

/-- Login right after a fresh insert resolves to the inserted account when no older row matches the identifier. -/
theorem login_after_fresh_register
    (secret : String) (s : Store) (u e p : String) (salt now now2 : Nat)
    (hnu : ∀ a ∈ s.accounts, a.username ≠ u)
    (hcross : ∀ a ∈ s.accounts, a.email ≠ u) :
    login secret ⟨s.accounts ++ [⟨s.nextId, u, e, bcryptHash salt p, now⟩], s.nextId + 1⟩ u p now2 =
      .ok (jwtSign secret s.nextId u now2) ⟨s.nextId, u, e⟩ := by
  have hfind : (s.accounts.find? (fun a => a.username == u || a.email == u)) = none := by
    rw [List.find?_eq_none]
    intro a ha
    simp [hnu a ha, hcross a ha]
  simp [login, List.find?_append, hfind, bcryptCompare, bcryptHash]

/-- The register handler has exactly five outcomes, with their stores and effect traces. -/
theorem register_cases (secret : String) (s : Store) (req : RegisterRequest)
    (salt now : Nat) :
    register secret s req salt now = ⟨.failed 400 allFieldsMsg, s, []⟩ ∨
    register secret s req salt now = ⟨.failed 400 shortPasswordMsg, s, []⟩ ∨
    register secret s req salt now = ⟨.failed 400 userExistsMsg, s, [.lookup]⟩ ∨
    register secret s req salt now =
      ⟨.failed 500 registerFailMsg, s, [.lookup, .hashOp, .insert]⟩ ∨
    (∃ tok uv s2, register secret s req salt now =
      ⟨.created tok uv, s2, [.lookup, .hashOp, .insert, .tokenSign]⟩) := by
  unfold register
  split
  · exact Or.inl rfl
  · dsimp only
    split
    · exact Or.inr (Or.inl rfl)
    · split
      · exact Or.inr (Or.inr (Or.inl rfl))
      · split
        · exact Or.inr (Or.inr (Or.inr (Or.inl rfl)))
        · exact Or.inr (Or.inr (Or.inr (Or.inr ⟨_, _, _, rfl⟩)))


/-! ## Claims -/

/-- Claim C1: evaluating the configuration line with JWT_SECRET unset (or set
to the empty string) yields the hardcoded constant, so the process starts with
a guessable signing secret instead of failing fast. -/
theorem jwt_secret_fallback_when_unset :
    jwtSecretConfig none = "stark-secret-key-2024" ∧
    jwtSecretConfig (some "") = "stark-secret-key-2024" :=
  ⟨rfl, rfl⟩

/-- Claim C2 counterexample: the store holds an account with username tony,
yet a register call reusing that username with a short password fails with
the validation message, not the conflict message. -/
theorem register_duplicate_username_without_conflict :
    (∃ a ∈ ([⟨1, "tony", "tony@stark.io", bcryptHash 0 "ironman1", 0⟩] : List Account),
      a.username = "tony") ∧
    (register "sek" ⟨[⟨1, "tony", "tony@stark.io", bcryptHash 0 "ironman1", 0⟩], 2⟩
        ⟨some "tony", some "other@x.io", some "abc"⟩ 1 5).resp =
      .failed 400 shortPasswordMsg ∧
    (RegisterResponse.failed 400 shortPasswordMsg ≠ .failed 400 userExistsMsg) := by
  refine ⟨?_, ?_, ?_⟩ <;> decide

/-- Claim C2 (amended): when the register input passes field validation, a
call reusing an existing username (even with different email) or an existing
email (even with different username) answers the conflict response and leaves
the store unchanged. -/
theorem register_existing_username_or_email_conflict
    (secret : String) (s : Store) (u e p : String) (salt now : Nat)
    (hu : u ≠ "") (he : e ≠ "") (hp : 6 ≤ p.length)
    (hdup : (∃ a ∈ s.accounts, a.username = u) ∨ (∃ a ∈ s.accounts, a.email = e)) :
    register secret s ⟨some u, some e, some p⟩ salt now =
      ⟨.failed 400 userExistsMsg, s, [.lookup]⟩ := by
  have hrows : 0 < (s.accounts.filter (fun a => a.username == u || a.email == e)).length := by
    rcases hdup with ⟨a, ha, hau⟩ | ⟨a, ha, hae⟩
    · exact List.length_pos_of_mem (List.mem_filter.mpr ⟨ha, by simp [hau]⟩)
    · exact List.length_pos_of_mem (List.mem_filter.mpr ⟨ha, by simp [hae]⟩)
  simp [register, falsy, isEmpty_false_of_ne hu, isEmpty_false_of_ne he,
    isEmpty_false_of_ne (ne_empty_of_six_le hp), Nat.not_lt.mpr hp, hrows]

/-- Witness for the amended claim C2 at a concrete store and input. -/
theorem register_existing_username_or_email_conflict_witness :
    register "sek" ⟨[⟨1, "tony", "tony@stark.io", bcryptHash 0 "ironman1", 0⟩], 2⟩
        ⟨some "tony", some "other@x.io", some "whatever1"⟩ 3 9 =
      ⟨.failed 400 userExistsMsg,
        ⟨[⟨1, "tony", "tony@stark.io", bcryptHash 0 "ironman1", 0⟩], 2⟩, [.lookup]⟩ :=
  register_existing_username_or_email_conflict "sek" _ "tony" "other@x.io" "whatever1" 3 9
    (by decide) (by decide) (by decide)
    (Or.inl ⟨⟨1, "tony", "tony@stark.io", bcryptHash 0 "ironman1", 0⟩, by simp, rfl⟩)

/-- Claim C3 counterexample: no account has username tony nor email
tony-at-stark-io, register succeeds, yet the immediate login with the new
username fails, because the lookup matching username or email finds an older
account whose email equals the new username and compares against its hash. -/
theorem register_then_login_divergence :
    (∀ a ∈ ([⟨1, "pepper", "tony", bcryptHash 0 "rescue99", 0⟩] : List Account),
      a.username ≠ "tony" ∧ a.email ≠ "tony@stark.io") ∧
    (register "sek" ⟨[⟨1, "pepper", "tony", bcryptHash 0 "rescue99", 0⟩], 2⟩
        ⟨some "tony", some "tony@stark.io", some "ironman1"⟩ 1 5).resp =
      .created (jwtSign "sek" 2 "tony" 5) ⟨2, "tony", "tony@stark.io"⟩ ∧
    login "sek" (register "sek" ⟨[⟨1, "pepper", "tony", bcryptHash 0 "rescue99", 0⟩], 2⟩
        ⟨some "tony", some "tony@stark.io", some "ironman1"⟩ 1 5).store "tony" "ironman1" 6 =
      .failed 401 invalidCredsMsg := by
  refine ⟨?_, ?_, ?_⟩ <;> decide

/-- Claim C3 (amended): register of a valid fresh triple followed immediately
by login with that username succeeds with the same account id, provided no
existing account carries the new username in its email column (otherwise the
login lookup can resolve to that other account). -/
theorem register_then_login_same_id
    (secret : String) (s : Store) (u e p : String) (salt now now2 : Nat)
    (hu : u ≠ "") (he : e ≠ "") (hp : 6 ≤ p.length)
    (hnu : ∀ a ∈ s.accounts, a.username ≠ u)
    (hne : ∀ a ∈ s.accounts, a.email ≠ e)
    (hcross : ∀ a ∈ s.accounts, a.email ≠ u) :
    (register secret s ⟨some u, some e, some p⟩ salt now).resp =
      .created (jwtSign secret s.nextId u now) ⟨s.nextId, u, e⟩ ∧
    login secret (register secret s ⟨some u, some e, some p⟩ salt now).store u p now2 =
      .ok (jwtSign secret s.nextId u now2) ⟨s.nextId, u, e⟩ := by
  rw [register_fresh_success secret s u e p salt now hu he hp hnu hne]
  exact ⟨rfl, login_after_fresh_register secret s u e p salt now now2 hnu hcross⟩

/-- Witness for the amended claim C3 on the empty store. -/
theorem register_then_login_same_id_witness :
    (register "sek" ⟨[], 1⟩ ⟨some "tony", some "tony@stark.io", some "ironman1"⟩ 0 5).resp =
      .created (jwtSign "sek" 1 "tony" 5) ⟨1, "tony", "tony@stark.io"⟩ ∧
    login "sek" (register "sek" ⟨[], 1⟩ ⟨some "tony", some "tony@stark.io", some "ironman1"⟩ 0 5).store
        "tony" "ironman1" 6 =
      .ok (jwtSign "sek" 1 "tony" 6) ⟨1, "tony", "tony@stark.io"⟩ :=
  register_then_login_same_id "sek" ⟨[], 1⟩ "tony" "tony@stark.io" "ironman1" 0 5 6
    (by decide) (by decide) (by decide) (by simp) (by simp) (by simp)

/-- Claim C4: a register input with a missing or empty field, or a password
shorter than 6 characters, answers a 400 validation message, leaves the store
unchanged, and performs no lookup, no hashing and no insert. -/
theorem register_validation_failure
    (secret : String) (s : Store) (req : RegisterRequest) (salt now : Nat)
    (h : falsy req.username = true ∨ falsy req.email = true ∨ falsy req.password = true ∨
      (req.password.getD "").length < 6) :
    ((register secret s req salt now).resp = .failed 400 allFieldsMsg ∨
      (register secret s req salt now).resp = .failed 400 shortPasswordMsg) ∧
    (register secret s req salt now).store = s ∧
    (register secret s req salt now).events = [] := by
  by_cases hb : (falsy req.username || falsy req.email || falsy req.password) = true
  · unfold register
    rw [if_pos hb]
    exact ⟨Or.inl rfl, rfl, rfl⟩
  · have hlen : (req.password.getD "").length < 6 := by
      simp only [Bool.or_eq_true, not_or] at hb
      obtain ⟨⟨hb1, hb2⟩, hb3⟩ := hb
      rcases h with h | h | h | h
      · exact absurd h hb1
      · exact absurd h hb2
      · exact absurd h hb3
      · exact h
    unfold register
    rw [if_neg hb]
    dsimp only
    rw [if_pos hlen]
    exact ⟨Or.inr rfl, rfl, rfl⟩

/-- Witness for claim C4: a too-short password is rejected before any effect. -/
theorem register_validation_failure_witness :
    ((register "sek" ⟨[], 1⟩ ⟨some "tony", some "t@x.io", some "abc"⟩ 0 0).resp =
        .failed 400 allFieldsMsg ∨
      (register "sek" ⟨[], 1⟩ ⟨some "tony", some "t@x.io", some "abc"⟩ 0 0).resp =
        .failed 400 shortPasswordMsg) ∧
    (register "sek" ⟨[], 1⟩ ⟨some "tony", some "t@x.io", some "abc"⟩ 0 0).store = ⟨[], 1⟩ ∧
    (register "sek" ⟨[], 1⟩ ⟨some "tony", some "t@x.io", some "abc"⟩ 0 0).events = [] :=
  register_validation_failure "sek" ⟨[], 1⟩ ⟨some "tony", some "t@x.io", some "abc"⟩ 0 0
    (Or.inr (Or.inr (Or.inr (by decide))))

/-- Claim C5: login with a known identifier but wrong password and login with
a wholly unknown identifier both answer status 401 with the same message, and
the two responses are equal as values. -/
theorem login_enumeration_resistance
    (secret : String) (s : Store) (id1 p1 id2 p2 : String) (now1 now2 : Nat) (a : Account)
    (h1 : s.accounts.find? (fun x => x.username == id1 || x.email == id1) = some a)
    (hw : bcryptCompare p1 a.passwordHash = false)
    (h2 : s.accounts.find? (fun x => x.username == id2 || x.email == id2) = none) :
    login secret s id1 p1 now1 = .failed 401 invalidCredsMsg ∧
    login secret s id2 p2 now2 = .failed 401 invalidCredsMsg ∧
    login secret s id1 p1 now1 = login secret s id2 p2 now2 := by
  have hl1 : login secret s id1 p1 now1 = .failed 401 invalidCredsMsg := by
    simp [login, h1, hw]
  have hl2 : login secret s id2 p2 now2 = .failed 401 invalidCredsMsg := by
    simp [login, h2]
  exact ⟨hl1, hl2, hl1.trans hl2.symm⟩

/-- Witness for claim C5 at a concrete one-account store. -/
theorem login_enumeration_resistance_witness :
    login "sek" ⟨[⟨1, "tony", "t@x.io", bcryptHash 0 "rightpw", 0⟩], 2⟩ "tony" "wrongpw" 3 =
      .failed 401 invalidCredsMsg ∧
    login "sek" ⟨[⟨1, "tony", "t@x.io", bcryptHash 0 "rightpw", 0⟩], 2⟩ "nobody" "rightpw" 4 =
      .failed 401 invalidCredsMsg ∧
    login "sek" ⟨[⟨1, "tony", "t@x.io", bcryptHash 0 "rightpw", 0⟩], 2⟩ "tony" "wrongpw" 3 =
      login "sek" ⟨[⟨1, "tony", "t@x.io", bcryptHash 0 "rightpw", 0⟩], 2⟩ "nobody" "rightpw" 4 :=
  login_enumeration_resistance "sek" ⟨[⟨1, "tony", "t@x.io", bcryptHash 0 "rightpw", 0⟩], 2⟩
    "tony" "wrongpw" "nobody" "rightpw" 3 4
    ⟨1, "tony", "t@x.io", bcryptHash 0 "rightpw", 0⟩ (by decide) (by decide) (by decide)

/-- Claim C6: verifying a token immediately after issuing it returns valid
with exactly the issued account id, username and issuance time as payload,
and the token carries the fixed 30-day expiry inside the signed token itself. -/
theorem token_issue_verify_roundtrip (secret : String) (uid : Nat) (uname : String) (now : Nat) :
    verifyTokenEndpoint secret now (.parsed (jwtSign secret uid uname now)) =
      .valid ⟨uid, uname, now⟩ ∧
    (jwtSign secret uid uname now).payload = ⟨uid, uname, now⟩ ∧
    (jwtSign secret uid uname now).exp = now + thirtyDays := by
  have hexp : ¬ ((jwtSign secret uid uname now).exp ≤ now) := by
    simp only [jwtSign, thirtyDays]
    omega
  refine ⟨?_, rfl, rfl⟩
  simp [verifyTokenEndpoint, jwtVerify, jwtSign, thirtyDays] at hexp ⊢

/-- Claim C7: the verify endpoint answers a discriminated invalid result, and
never propagates an error, for a missing token, an unparseable token, a token
whose signature does not match, and an expired token. -/
theorem verify_token_never_raises (secret : String) (now : Nat) (t : Token)
    (h : t.sig ≠ (⟨secret, t.payload, t.exp⟩ : Signature) ∨ t.exp ≤ now) :
    verifyTokenEndpoint secret now .missing = .invalid noTokenMsg ∧
    verifyTokenEndpoint secret now .malformed = .invalid badTokenMsg ∧
    verifyTokenEndpoint secret now (.parsed t) = .invalid badTokenMsg := by
  refine ⟨rfl, rfl, ?_⟩
  have hv : jwtVerify secret now t = .error "invalid signature" ∨
      jwtVerify secret now t = .error "jwt expired" := by
    unfold jwtVerify
    by_cases hs : t.sig ≠ (⟨secret, t.payload, t.exp⟩ : Signature)
    · rw [if_pos hs]
      exact Or.inl rfl
    · rcases h with h | h
      · exact absurd h hs
      · rw [if_neg hs, if_pos h]
        exact Or.inr rfl
  rcases hv with h2 | h2 <;> simp [verifyTokenEndpoint, h2]

/-- Witness for claim C7: a token signed under a different secret. -/
theorem verify_token_never_raises_witness :
    verifyTokenEndpoint "sek" 0 .missing = .invalid noTokenMsg ∧
    verifyTokenEndpoint "sek" 0 .malformed = .invalid badTokenMsg ∧
    verifyTokenEndpoint "sek" 0 (.parsed (jwtSign "other" 1 "alice" 0)) = .invalid badTokenMsg :=
  verify_token_never_raises "sek" 0 (jwtSign "other" 1 "alice" 0) (Or.inl (by decide))

/-- Claim C8: every record the users listing returns is the projection of a
stored account onto id, username, email and creation time, and that
projection does not depend on the password hash. -/
theorem listUsers_excludes_password_hash (s : Store) (r : UserRecord)
    (hr : r ∈ listUsers s) :
    (∃ a ∈ s.accounts, r = publicRecord a) ∧
    (∀ (a : Account) (h1 h2 : BcryptHash),
      publicRecord ⟨a.id, a.username, a.email, h1, a.createdAt⟩ =
        publicRecord ⟨a.id, a.username, a.email, h2, a.createdAt⟩) := by
  constructor
  · rcases List.mem_map.mp hr with ⟨a, ha, heq⟩
    exact ⟨a, ha, heq.symm⟩
  · intro a h1 h2
    rfl

/-- Witness for claim C8 at a concrete one-account store. -/
theorem listUsers_excludes_password_hash_witness :
    (∃ a ∈ ({ accounts := [⟨1, "tony", "t@x.io", bcryptHash 0 "pw", 3⟩], nextId := 2 } : Store).accounts,
      (⟨1, "tony", "t@x.io", 3⟩ : UserRecord) = publicRecord a) ∧
    (∀ (a : Account) (h1 h2 : BcryptHash),
      publicRecord ⟨a.id, a.username, a.email, h1, a.createdAt⟩ =
        publicRecord ⟨a.id, a.username, a.email, h2, a.createdAt⟩) :=
  listUsers_excludes_password_hash ⟨[⟨1, "tony", "t@x.io", bcryptHash 0 "pw", 3⟩], 2⟩
    ⟨1, "tony", "t@x.io", 3⟩ (by decide)

/-- Claim C9: the username availability check answers true exactly when no
stored account has that exact username; a match in the email column alone
does not make it unavailable. -/
theorem checkUsernameAvailable_iff_no_username (s : Store) (u : String) :
    checkUsernameAvailable s u = true ↔ ∀ a ∈ s.accounts, a.username ≠ u := by
  simp [checkUsernameAvailable, List.length_eq_zero, List.filter_eq_nil_iff]

/-- Claim C10: every register failure produced before the insert is a status
400 response carrying one of the three pre-insert messages, and the conflict
message differs from both validation messages only as text. -/
theorem register_preinsert_failures_are_400
    (secret : String) (s : Store) (req : RegisterRequest) (salt now : Nat)
    (st : Nat) (msg : String)
    (hf : (register secret s req salt now).resp = .failed st msg)
    (hni : DbEvent.insert ∉ (register secret s req salt now).events) :
    st = 400 ∧ (msg = allFieldsMsg ∨ msg = shortPasswordMsg ∨ msg = userExistsMsg) ∧
    userExistsMsg ≠ allFieldsMsg ∧ userExistsMsg ≠ shortPasswordMsg := by
  rcases register_cases secret s req salt now with h | h | h | h | ⟨tok, uv, s2, h⟩
  · rw [h] at hf
    injection hf with h1 h2
    exact ⟨h1.symm, Or.inl h2.symm, by decide, by decide⟩
  · rw [h] at hf
    injection hf with h1 h2
    exact ⟨h1.symm, Or.inr (Or.inl h2.symm), by decide, by decide⟩
  · rw [h] at hf
    injection hf with h1 h2
    exact ⟨h1.symm, Or.inr (Or.inr h2.symm), by decide, by decide⟩
  · rw [h] at hni
    simp at hni
  · rw [h] at hf
    cases hf

/-- Witness for claim C10: a register call with a missing email. -/
theorem register_preinsert_failures_are_400_witness :
    400 = 400 ∧
    (allFieldsMsg = allFieldsMsg ∨ allFieldsMsg = shortPasswordMsg ∨ allFieldsMsg = userExistsMsg) ∧
    userExistsMsg ≠ allFieldsMsg ∧ userExistsMsg ≠ shortPasswordMsg :=
  register_preinsert_failures_are_400 "sek" ⟨[], 1⟩ ⟨some "tony", none, some "ironman1"⟩ 0 0
    400 allFieldsMsg (by decide) (by decide)

end Stark
